import Mathlib

/-!
Verification development for the `fractal` engine (`src/fractal.js`).

The engine is shallowly embedded: records are an arbitrary type `Rec`,
asynchronous promise chains become sequential `Except`-valued computations
(a promise rejection and a synchronous throw are both `Except.error`), and
the engine object, mutated in place in JavaScript, is threaded functionally
while its object identity is kept as a stable `id` field.  The collaborator
modules `./collection`, `./plugins` and `./methods` are required by
`fractal.js` but are not among the sources under study; they are modelled
from the specification (sections 4.1-4.3) and marked as such below.
-/

set_option autoImplicit false

namespace Fractal

universe u

/-- JavaScript-level values flowing through collection method handlers.
`coll` is the view of a Collection exposing its record sequence; `stateObj`
models the plain object literal returned by the engine `state` getter
(fractal.js lines 257-262: a fresh object with `files` and `components`
fields built at each read); `nullv` is JS `null` and `undefinedv` is
`undefined`. -/
inductive JVal (Rec : Type u) where
  | undefinedv : JVal Rec
  | nullv : JVal Rec
  | nat (n : Nat) : JVal Rec
  | coll (items : List Rec) : JVal Rec
  | stateObj (files components : JVal Rec) : JVal Rec
  deriving DecidableEq

/-- JavaScript property read of a named field.  Only the engine state object
carries named fields in this development; reading a field of any other
value yields `undefined`. -/
def jsGet {Rec : Type u} (v : JVal Rec) (field : String) : JVal Rec :=
  match v with
  | .stateObj f c =>
      if field = "files" then f else if field = "components" then c else .undefinedv
  | _ => .undefinedv

/-- JavaScript call of a `.toArray()` member: it succeeds only on a
Collection value; on any other value the member is absent and the call
raises a TypeError, modelled as `Except.error`. -/
def jsToArray {Rec : Type u} (v : JVal Rec) : Except String (List Rec) :=
  match v with
  | .coll items => .ok items
  | _ => .error "TypeError: toArray is not a function"

/-- A user-supplied collection method handler.  Per fractal.js line 118 the
registered wrapper invokes it with the invocation arguments as an array,
the engine state object, and the engine reference (modelled by the stable
numeric identity of the engine object). -/
abbrev Handler (Rec : Type u) : Type u :=
  List (JVal Rec) → JVal Rec → Nat → Except String (JVal Rec)

/-- Modelled from the spec: the Collection module (`./collection`) is not
among the sources under study.  Per spec section 4.2 a Collection is
constructed from an ordered sequence of records, exposes them read-only via
`toArray`, and hosts runtime-attached methods; fractal.js attaches them
with `_.set(collection, name, boundHandler)` (line 198), which overwrites
an existing entry of the same name.  Attached methods are stored as a
name-keyed association list alongside the record sequence. -/
structure Collection (Rec : Type u) where
  items : List Rec
  methods : List (String × Handler Rec)

/-- The `toArray` member of a Collection (spec section 4.2): the record
sequence the Collection was constructed from. -/
def Collection.toArray {Rec : Type u} (c : Collection Rec) : List Rec :=
  c.items

/-- Attach a method under a name, overwriting an existing entry of the same
name (the behaviour of the lodash `_.set` call at fractal.js line 198). -/
def setMethod {Rec : Type u} :
    List (String × Handler Rec) → String → Handler Rec → List (String × Handler Rec)
  | [], name, h => [(name, h)]
  | (n, g) :: rest, name, h =>
      if n = name then (n, h) :: rest else (n, g) :: setMethod rest name h

/-- Look up an attached method of a Collection by name. -/
def findMethod {Rec : Type u} (c : Collection Rec) (name : String) :
    Option (Handler Rec) :=
  c.methods.lookup name

/-- The binding loop of `parse` (fractal.js lines 195-199): a fresh
collection is built from the processed items and every handler in the
lane's registry is attached to it in registration order. -/
def bindMethods {Rec : Type u} (items : List Rec)
    (registry : List (String × Handler Rec)) : Collection Rec :=
  { items := items
    methods := registry.foldl (fun ms m => setMethod ms m.1 m.2) [] }

/-- A parser plugin: it receives the current record set and the engine
reference (modelled by the engine identity, which is all a plugin can
observe of it here) and produces the next record set or fails. -/
abbrev Plugin (Rec : Type u) : Type u :=
  List Rec → Nat → Except String (List Rec)

/-- Modelled from the spec: the plugin pipeline module (`./plugins`) is not
among the sources under study.  Per spec section 4.1, `process` runs the
registered plugins strictly in registration order, each receiving the
previous output and the engine reference; a failure short-circuits the run
and no later plugin executes. -/
def process {Rec : Type u} (plugins : List (Plugin Rec)) (data : List Rec)
    (engineId : Nat) : Except String (List Rec) :=
  match plugins with
  | [] => .ok data
  | p :: rest =>
      match p data engineId with
      | .error e => .error e
      | .ok next => process rest next engineId

/-- The two processing lanes; `validate.entityType` admits exactly these
names, so the validation is total here by typing. -/
inductive TargetName where
  | files : TargetName
  | components : TargetName
  deriving DecidableEq

/-- One processing lane (fractal.js lines 39-49): its plugin pipeline, its
method registry, and the published state, `null` (`none`) until a parse
publishes a collection.  The registry (`./methods`, not among the sources
under study) stores name/handler pairs in registration order per spec
section 4.3. -/
structure Target (Rec : Type u) where
  plugins : List (Plugin Rec)
  methods : List (String × Handler Rec)
  state : Option (Collection Rec)

/-- The state a Fractal instance holds via its per-instance WeakMaps: the
two targets, the transformer, the source path list, and the number of
listeners subscribed to the `error` event of the underlying emitter.  `id`
models the JavaScript object identity of the instance: every mutating
operation returns an engine with the same `id`, reflecting that callers
hold one stable reference to an object that mutates. -/
structure Engine (Rec : Type u) where
  id : Nat
  files : Target Rec
  components : Target Rec
  transformer : List Rec → Except String (List Rec)
  src : List String
  errorListeners : Nat

/-- Subscribing a listener to the `error` event (`this.on('error', ...)`). -/
def onError {Rec : Type u} (eng : Engine Rec) : Engine Rec :=
  { eng with errorListeners := eng.errorListeners + 1 }

/-- The constructor (fractal.js lines 32-61) before its final line: empty
pipelines and registries, `null` states, the default transformer `() => []`
(which ignores its argument and produces the empty record set), no sources,
and no `error` listener yet. -/
def initEngine {Rec : Type u} (id : Nat) : Engine Rec :=
  { id := id
    files := { plugins := [], methods := [], state := none }
    components := { plugins := [], methods := [], state := none }
    transformer := fun _ => .ok []
    src := []
    errorListeners := 0 }

/-- The constructor including its final line (fractal.js line 60), which
installs the default no-op `error` listener. -/
def constructEngine {Rec : Type u} (id : Nat) : Engine Rec :=
  onError (initEngine id)

/-- Reading a lane of the engine (the `files` / `components` getters). -/
def Engine.target {Rec : Type u} (eng : Engine Rec) : TargetName → Target Rec
  | .files => eng.files
  | .components => eng.components

/-- Replacing a lane of the engine. -/
def Engine.setTarget {Rec : Type u} (eng : Engine Rec) :
    TargetName → Target Rec → Engine Rec
  | .files, t => { eng with files := t }
  | .components, t => { eng with components := t }

/-- `addPlugin` (fractal.js lines 98-102): validates the target name (total
here by typing) and appends the plugin to that lane; `Plugins.use` appends,
so registration order is preserved (spec section 4.1). -/
def addPlugin {Rec : Type u} (eng : Engine Rec) (p : Plugin Rec)
    (t : TargetName) : Engine Rec :=
  eng.setTarget t
    { eng.target t with plugins := (eng.target t).plugins ++ [p] }

/-- `addMethod` (fractal.js lines 115-121): registers a named handler on a
lane, in registration order.  The source stores the wrapped closure
`(...args) => handler(args, this.state, this)`; since that wrapper is an
arrow function which re-reads `this.state` at every invocation and refers
to the one stable engine object, storing the raw handler and applying the
wrapping at invocation time (`callMethod` below) is observationally the
same. -/
def addMethod {Rec : Type u} (eng : Engine Rec) (name : String)
    (h : Handler Rec) (t : TargetName) : Engine Rec :=
  eng.setTarget t
    { eng.target t with methods := (eng.target t).methods ++ [(name, h)] }

/-- `setTransformer` (fractal.js lines 165-169): replaces the transformer. -/
def setTransformer {Rec : Type u} (eng : Engine Rec)
    (f : List Rec → Except String (List Rec)) : Engine Rec :=
  { eng with transformer := f }

/-- `addSrc` (fractal.js lines 80-89): the argument is normalized to a list
of path strings by the external `@frctl/utils` collaborator, so the model
takes the normalized list; each path is validated in isolation
(`validate.src` sees only the single path, never the current list), and the
list is extended with `sources.concat(toAdd)`. -/
def addSrc {Rec : Type u} (eng : Engine Rec) (paths : List String) :
    Engine Rec :=
  { eng with src := eng.src ++ paths }

/-- The collection-valued view of a published lane state: JS `null` before
any parse has published. -/
def collVal {Rec : Type u} : Option (Collection Rec) → JVal Rec
  | none => .nullv
  | some c => .coll c.items

/-- The `state` getter (fractal.js lines 257-262): a plain object literal
with `files` and `components` fields, built fresh at each read. -/
def stateVal {Rec : Type u} (eng : Engine Rec) : JVal Rec :=
  .stateObj (collVal eng.files.state) (collVal eng.components.state)

/-- Invoking a bound method of a collection, against the engine as it is at
the moment of the call.  The stored entry stands for the wrapped arrow
closure created by `addMethod`; because an arrow function ignores the
receiver supplied by `Function.prototype.bind`, the `bind(collection)`
performed at parse time (fractal.js line 198) cannot change what the
closure sees, and the invocation evaluates
`handler(args, this.state, this)` with `this.state` read from the engine at
call time.  The result is `none` when no method of that name is
attached. -/
def callMethod {Rec : Type u} (eng : Engine Rec) (c : Collection Rec)
    (name : String) (args : List (JVal Rec)) :
    Option (Except String (JVal Rec)) :=
  (findMethod c name).map fun h => h args (stateVal eng) eng.id

/-- Lifecycle events emitted during a parse (`parse.start`,
`parse.complete` with the pair `(componentsState, filesState)` as read back
from the engine, and `error`). -/
inductive Event (Rec : Type u) where
  | parseStart : Event Rec
  | parseComplete (components files : Option (Collection Rec)) : Event Rec
  | errorEvt (e : String) : Event Rec

/-- The argument list of one invocation of the completion callback: either
`callback(err)` or `callback(null, componentsState, filesState)`. -/
abbrev CallbackArg (Rec : Type u) : Type u :=
  Except String (Option (Collection Rec) × Option (Collection Rec))

/-- A completion callback; invoking it may itself throw. -/
abbrev Callback (Rec : Type u) : Type u := CallbackArg Rec → Except String Unit

/-- The `mutate` helper of `parse` (fractal.js lines 193-203): run the
lane's pipeline over the data, build a fresh collection, bind every
registered method of the lane to it, and publish it as the lane state. -/
def mutate {Rec : Type u} (eng : Engine Rec) (data : List Rec)
    (t : TargetName) : Except String (Collection Rec × Engine Rec) :=
  match process (eng.target t).plugins data eng.id with
  | .error e => .error e
  | .ok items =>
      let c := bindMethods items (eng.target t).methods
      .ok (c, eng.setTarget t { eng.target t with state := some c })

/-- The then-chain of `parse` (fractal.js lines 205-213), threaded over the
engine.  `hook` models interleaved execution at the suspension point where
the transformer promise has resolved but the components-stage `mutate` has
not yet run; spec section 5 lists these suspension points and notes that
the target containers are shared mutable state across them.  The plain call
sites use the identity hook.  On failure the target mutations already
performed are kept, as in the source. -/
def parseChain {Rec : Type u} (eng : Engine Rec) (input : Option (List Rec))
    (hook : Engine Rec → Engine Rec) :
    Except (String × Engine Rec) (Engine Rec) :=
  match mutate eng (input.getD []) .files with
  | .error e => .error (e, eng)
  | .ok (filesColl, eng1) =>
      match eng1.transformer filesColl.toArray with
      | .error e => .error (e, eng1)
      | .ok output =>
          let eng2 := hook eng1
          match mutate eng2 output .components with
          | .error e => .error (e, eng2)
          | .ok (_, eng3) => .ok eng3

/-- Everything observable from one `parse(callback)` call: the engine after
the call settles, the events emitted in order, and the callback invocations
in order. -/
structure ParseOutcome (Rec : Type u) where
  engine : Engine Rec
  events : List (Event Rec)
  calls : List (CallbackArg Rec)

/-- One run of `parse(callback)` (fractal.js lines 177-218), with an
explicit result for the external `fs.readDir` collaborator: `readRes` is
the outcome of reading the source directories, where `.ok none` models a
null or undefined resolution, turned into `[]` by `input || []` at line
206.  The trailing `.catch` hears a rejection from any earlier stage of the
chain — including a throw from the success invocation of the callback
itself, which runs inside the chain at line 212 — emits `error`, and
invokes the callback again with the failure; a throw from that second
invocation escapes the chain unobserved and is not modelled further. -/
def parseRun {Rec : Type u} (eng : Engine Rec)
    (readRes : Except String (Option (List Rec))) (cb : Callback Rec)
    (hook : Engine Rec → Engine Rec) : ParseOutcome Rec :=
  match readRes with
  | .error e =>
      { engine := eng
        events := [.parseStart, .errorEvt e]
        calls := [.error e] }
  | .ok input =>
      match parseChain eng input hook with
      | .error (e, eng1) =>
          { engine := eng1
            events := [.parseStart, .errorEvt e]
            calls := [.error e] }
      | .ok eng3 =>
          let result := (eng3.components.state, eng3.files.state)
          match cb (.ok result) with
          | .ok _ =>
              { engine := eng3
                events := [.parseStart, .parseComplete result.1 result.2]
                calls := [.ok result] }
          | .error e2 =>
              { engine := eng3
                events := [.parseStart, .parseComplete result.1 result.2,
                           .errorEvt e2]
                calls := [.ok result, .error e2] }

/-- A `parse(callback)` call with no interleaved mutation at the suspension
points. -/
def parseCall {Rec : Type u} (eng : Engine Rec)
    (readRes : Except String (Option (List Rec))) (cb : Callback Rec) :
    ParseOutcome Rec :=
  parseRun eng readRes cb (fun e => e)

/-- The completion callback supplied by the promise wrapper of `parse`
(fractal.js lines 178-187): it only settles the promise and never throws. -/
def promiseCb {Rec : Type u} : Callback Rec := fun _ => .ok ()

/-- The promise calling convention (`parse()` without a callback): the
wrapper runs the callback form with the settling callback; the promise
settles with the first invocation, `.ok (componentsState, filesState)` on
resolution and `.error err` on rejection. -/
def parsePromise {Rec : Type u} (eng : Engine Rec)
    (readRes : Except String (Option (List Rec))) :
    ParseOutcome Rec × CallbackArg Rec :=
  let run := parseCall eng readRes promiseCb
  (run, run.calls.headD (.error "unsettled"))

/-- Modelled from the spec: the event emitter collaborator follows the node
convention that emitting `error` with no subscriber terminates the process,
while with at least one listener the emission is purely observational (spec
section 4.5). -/
def errorEmissionTerminates {Rec : Type u} (eng : Engine Rec) : Bool :=
  eng.errorListeners == 0

/-- The spec example handler of the `count` scenario, read literally:
`(args, state) => state.toArray().length`. -/
def specCountHandler {Rec : Type u} : Handler Rec := fun _ st _ =>
  (jsToArray st).map fun xs => .nat xs.length

/-- The count handler adjusted to the value the engine actually passes: the
state argument is the object with `files` and `components` fields, so the
record sequence is reached as `state.components.toArray()`. -/
def componentsCountHandler {Rec : Type u} : Handler Rec := fun _ st _ =>
  (jsToArray (jsGet st "components")).map fun xs => .nat xs.length

/-- A handler that returns the state argument it receives. -/
def echoStateHandler {Rec : Type u} : Handler Rec := fun _ st _ => .ok st

/-- A plugin that appends a fixed marker record. -/
def appendPlugin {Rec : Type u} (r : Rec) : Plugin Rec := fun xs _ =>
  .ok (xs ++ [r])

/-- A plugin that fails with the given message. -/
def failPlugin {Rec : Type u} (msg : String) : Plugin Rec := fun _ _ =>
  .error msg

/-- The identity (pass-through) transformer. -/
def idTransformer {Rec : Type u} : List Rec → Except String (List Rec) :=
  fun xs => .ok xs


/-! Concrete scenario instances used by the claim theorems below. -/

/-- Engine of the literal spec `count` scenario: the handler
`(args, state) => state.toArray().length` registered on the components
lane, with the identity transformer. -/
def c1Engine : Engine Nat :=
  setTransformer (addMethod (constructEngine 0) "count" specCountHandler .components)
    idTransformer

/-- A parse of three raw records through `c1Engine`. -/
def c1Run : ParseOutcome Nat := parseCall c1Engine (.ok (some [10, 20, 30])) promiseCb

/-- The components collection published by `c1Run`. -/
def c1Coll : Collection Nat := bindMethods [10, 20, 30] [("count", specCountHandler)]

/-- Engine with the identity transformer and one components plugin that
fails with `boom`. -/
def c2Engine : Engine Nat :=
  addPlugin (setTransformer (constructEngine 0) idTransformer) (failPlugin "boom")
    .components

/-- Engine with a state-echoing method on the components lane. -/
def c4Engine : Engine Nat :=
  setTransformer (addMethod (constructEngine 0) "echo" echoStateHandler .components)
    idTransformer

/-- First parse of `c4Engine`, over three records. -/
def c4Run1 : ParseOutcome Nat := parseCall c4Engine (.ok (some [1, 2, 3])) promiseCb

/-- The components collection published by `c4Run1`; callers keep holding
it across the second parse. -/
def c4Coll : Collection Nat := bindMethods [1, 2, 3] [("echo", echoStateHandler)]

/-- Second parse on the engine left by `c4Run1`, over one record. -/
def c4Run2 : ParseOutcome Nat := parseCall c4Run1.engine (.ok (some [7])) promiseCb

/-- Engine with a components-record-counting method on the components
lane. -/
def c5Engine : Engine Nat :=
  setTransformer (addMethod (constructEngine 0) "len" componentsCountHandler .components)
    idTransformer

/-- First parse of `c5Engine`, over three records. -/
def c5Run1 : ParseOutcome Nat := parseCall c5Engine (.ok (some [4, 5, 6])) promiseCb

/-- The components collection published by `c5Run1`. -/
def c5Coll : Collection Nat := bindMethods [4, 5, 6] [("len", componentsCountHandler)]

/-- Second parse on the engine left by `c5Run1`, over one record. -/
def c5Run2 : ParseOutcome Nat := parseCall c5Run1.engine (.ok (some [9])) promiseCb

/-- Engine with the identity transformer and no plugins on either lane. -/
def c6Engine : Engine Nat := setTransformer (constructEngine 0) idTransformer

/-- A parse of `c6Engine` during which, at the suspension point after the
transformer resolves, a marker-appending plugin is registered on the
components lane. -/
def c6Run : ParseOutcome Nat :=
  parseRun c6Engine (.ok (some [1, 2])) promiseCb
    (fun e => addPlugin e (appendPlugin 99) .components)

/-- Engine with the identity transformer and no plugins, for the identity
round-trip scenario. -/
def c7Engine : Engine Nat := setTransformer (constructEngine 0) idTransformer

/-- Engine whose files pipeline fails with `boom`. -/
def c8Engine : Engine Nat := addPlugin (constructEngine 0) (failPlugin "boom") .files

/-- A completion callback that itself throws on every invocation. -/
def c10Cb : Callback Nat := fun _ => .error "callback crashed"

/-- The engine left by a successful parse of one record on a freshly
constructed engine (default transformer): both lane states published. -/
def c10Eng3 : Engine Nat :=
  ((constructEngine 0 : Engine Nat).setTarget .files
      { (constructEngine 0 : Engine Nat).files with state := some (bindMethods [1] []) }).setTarget
    .components
      { (constructEngine 0 : Engine Nat).components with state := some (bindMethods [] []) }

/-! Helper lemmas shared by the claim theorems. -/

/-- Reading the files lane. -/
@[simp] theorem target_files {Rec : Type u} (eng : Engine Rec) :
    eng.target .files = eng.files := rfl

/-- Reading the components lane. -/
@[simp] theorem target_components {Rec : Type u} (eng : Engine Rec) :
    eng.target .components = eng.components := rfl

/-- Replacing the files lane updates it. -/
@[simp] theorem setTarget_files_files {Rec : Type u} (eng : Engine Rec) (t : Target Rec) :
    (eng.setTarget .files t).files = t := rfl

/-- Replacing the files lane leaves the components lane alone. -/
@[simp] theorem setTarget_files_components {Rec : Type u} (eng : Engine Rec)
    (t : Target Rec) : (eng.setTarget .files t).components = eng.components := rfl

/-- Replacing the components lane leaves the files lane alone. -/
@[simp] theorem setTarget_components_files {Rec : Type u} (eng : Engine Rec)
    (t : Target Rec) : (eng.setTarget .components t).files = eng.files := rfl

/-- Replacing the components lane updates it. -/
@[simp] theorem setTarget_components_components {Rec : Type u} (eng : Engine Rec)
    (t : Target Rec) : (eng.setTarget .components t).components = t := rfl

/-- Replacing a lane leaves the transformer alone. -/
@[simp] theorem setTarget_transformer {Rec : Type u} (eng : Engine Rec) (tn : TargetName)
    (t : Target Rec) : (eng.setTarget tn t).transformer = eng.transformer := by
  cases tn <;> rfl

/-- Replacing a lane leaves the engine identity alone. -/
@[simp] theorem setTarget_engine_id {Rec : Type u} (eng : Engine Rec) (tn : TargetName)
    (t : Target Rec) : (eng.setTarget tn t).id = eng.id := by
  cases tn <;> rfl

/-- Replacing a lane leaves the error listeners alone. -/
@[simp] theorem setTarget_errorListeners {Rec : Type u} (eng : Engine Rec) (tn : TargetName)
    (t : Target Rec) : (eng.setTarget tn t).errorListeners = eng.errorListeners := by
  cases tn <;> rfl

/-- The record sequence of a freshly bound collection is the processed
item list. -/
@[simp] theorem bindMethods_toArray {Rec : Type u} (xs : List Rec)
    (ms : List (String × Handler Rec)) : (bindMethods xs ms).toArray = xs := rfl

/-- Item projection of a freshly bound collection. -/
@[simp] theorem bindMethods_items {Rec : Type u} (xs : List Rec)
    (ms : List (String × Handler Rec)) : (bindMethods xs ms).items = xs := rfl

/-- A successful `mutate` changes only the lane it publishes to: engine
identity, error listeners and transformer are untouched. -/
theorem mutate_ok_proj {Rec : Type u} {eng : Engine Rec} {data : List Rec}
    {t : TargetName} {c : Collection Rec} {eng1 : Engine Rec}
    (h : mutate eng data t = .ok (c, eng1)) :
    eng1.errorListeners = eng.errorListeners ∧ eng1.id = eng.id ∧
    eng1.transformer = eng.transformer := by
  unfold mutate at h
  cases hp : process (eng.target t).plugins data eng.id with
  | error e => rw [hp] at h; simp at h
  | ok items =>
      rw [hp] at h
      simp only [Except.ok.injEq, Prod.mk.injEq] at h
      obtain ⟨-, h2⟩ := h
      subst h2
      simp

/-- A failing parse chain reports an engine with the identity and error
listeners of the one it started from. -/
theorem parseChain_error_proj {Rec : Type u} {eng eng1 : Engine Rec}
    {input : Option (List Rec)} {e : String}
    (h : parseChain eng input (fun x => x) = .error (e, eng1)) :
    eng1.errorListeners = eng.errorListeners ∧ eng1.id = eng.id := by
  unfold parseChain at h
  cases h1 : mutate eng (input.getD []) .files with
  | error e1 =>
      rw [h1] at h
      dsimp only at h
      simp only [Except.error.injEq, Prod.mk.injEq] at h
      obtain ⟨-, h2⟩ := h
      subst h2
      exact ⟨rfl, rfl⟩
  | ok p1 =>
      obtain ⟨c1, engA⟩ := p1
      obtain ⟨hlA, hiA, htA⟩ := mutate_ok_proj h1
      rw [h1] at h
      dsimp only at h
      cases h2 : engA.transformer c1.toArray with
      | error e2 =>
          rw [h2] at h
          dsimp only at h
          simp only [Except.error.injEq, Prod.mk.injEq] at h
          obtain ⟨-, h3⟩ := h
          subst h3
          exact ⟨hlA, hiA⟩
      | ok output =>
          rw [h2] at h
          dsimp only at h
          cases h3 : mutate engA output .components with
          | error e3 =>
              rw [h3] at h
              dsimp only at h
              simp only [Except.error.injEq, Prod.mk.injEq] at h
              obtain ⟨-, h4⟩ := h
              subst h4
              exact ⟨hlA, hiA⟩
          | ok p3 =>
              obtain ⟨c3, engB⟩ := p3
              rw [h3] at h
              simp at h

/-- A successful parse chain yields an engine with the identity and error
listeners of the one it started from. -/
theorem parseChain_ok_proj {Rec : Type u} {eng eng3 : Engine Rec}
    {input : Option (List Rec)}
    (h : parseChain eng input (fun x => x) = .ok eng3) :
    eng3.errorListeners = eng.errorListeners ∧ eng3.id = eng.id := by
  unfold parseChain at h
  cases h1 : mutate eng (input.getD []) .files with
  | error e1 => rw [h1] at h; simp at h
  | ok p1 =>
      obtain ⟨c1, engA⟩ := p1
      obtain ⟨hlA, hiA, htA⟩ := mutate_ok_proj h1
      rw [h1] at h
      dsimp only at h
      cases h2 : engA.transformer c1.toArray with
      | error e2 => rw [h2] at h; simp at h
      | ok output =>
          rw [h2] at h
          dsimp only at h
          cases h3 : mutate engA output .components with
          | error e3 => rw [h3] at h; simp at h
          | ok p3 =>
              obtain ⟨c3, engB⟩ := p3
              obtain ⟨hlB, hiB, htB⟩ := mutate_ok_proj h3
              rw [h3] at h
              dsimp only at h
              simp only [Except.ok.injEq] at h
              subst h
              exact ⟨hlB.trans hlA, hiB.trans hiA⟩

/-- A `parse` call never changes the engine identity or the set of error
listeners, whatever its outcome. -/
theorem parseCall_preserves {Rec : Type u} (eng : Engine Rec)
    (readRes : Except String (Option (List Rec))) (cb : Callback Rec) :
    (parseCall eng readRes cb).engine.errorListeners = eng.errorListeners ∧
    (parseCall eng readRes cb).engine.id = eng.id := by
  unfold parseCall parseRun
  cases readRes with
  | error e => simp
  | ok input =>
      cases hch : parseChain eng input (fun x => x) with
      | error p =>
          obtain ⟨e, eng1⟩ := p
          simp only [hch]
          exact parseChain_error_proj hch
      | ok eng3 =>
          simp only [hch]
          cases hcb : cb (.ok (eng3.components.state, eng3.files.state)) with
          | ok u => simp only [hcb]; exact parseChain_ok_proj hch
          | error e2 => simp only [hcb]; exact parseChain_ok_proj hch


/-! Claim theorems. -/

/-- C1, counterexample: after parsing three raw records through the identity
transformer with the spec's literal `count` handler registered on the
components lane, invoking `count()` on the published components collection
does not return 3 — the state argument the engine passes is the
`{files, components}` object, which has no `toArray` member, so the call
raises a TypeError. -/
theorem spec_count_handler_typeerror :
    c1Run.engine.components.state = some c1Coll ∧
    callMethod c1Run.engine c1Coll "count" []
      = some (.error "TypeError: toArray is not a function") ∧
    callMethod c1Run.engine c1Coll "count" [] ≠ some (.ok (.nat 3)) := by
  refine ⟨rfl, rfl, ?_⟩
  rw [show callMethod c1Run.engine c1Coll "count" []
      = some (.error "TypeError: toArray is not a function") from rfl]
  simp

/-- C1 (amended): every method registered via `addMethod(name, handler,
target)` is carried by the collection the next parse publishes, and
invoking it calls the handler with the invocation arguments as an array,
the engine's state object `{files, components}`, and the engine reference;
in particular the handler reading `state.components.toArray().length`
makes `count()` return the number of parsed records. -/
theorem addMethod_count_invocation {Rec : Type u} (idn : Nat) (name : String)
    (h : Handler Rec) (xs : List Rec) (args : List (JVal Rec)) :
    (parseCall (setTransformer (addMethod (constructEngine idn) name h .components)
          idTransformer)
        (.ok (some xs)) promiseCb).engine.components.state
      = some (bindMethods xs [(name, h)]) ∧
    callMethod
        (parseCall (setTransformer (addMethod (constructEngine idn) name h .components)
            idTransformer)
          (.ok (some xs)) promiseCb).engine
        (bindMethods xs [(name, h)]) name args
      = some (h args (.stateObj (.coll xs) (.coll xs)) idn) ∧
    callMethod
        (parseCall (setTransformer (addMethod (constructEngine idn) "count"
              componentsCountHandler .components)
            idTransformer)
          (.ok (some xs)) promiseCb).engine
        (bindMethods xs [("count", componentsCountHandler)]) "count" []
      = some (.ok (.nat xs.length)) := by
  refine ⟨rfl, ?_, ?_⟩
  · simp [callMethod, findMethod, List.lookup, bindMethods, setMethod, stateVal, collVal,
      parseCall, parseRun, parseChain, mutate, process, setTransformer, addMethod,
      constructEngine, initEngine, onError, Engine.setTarget, Engine.target, idTransformer,
      promiseCb, Collection.toArray]
  · rfl

/-- C2: if the files stage succeeded and then the transformer or the
components pipeline fails, the callback receives exactly that failure,
the files state published in step 3 of the same parse stays published,
and the components state is left at its pre-parse value. -/
theorem components_failure_partial_publication {Rec : Type u} (eng : Engine Rec)
    (input : Option (List Rec)) (cb : Callback Rec)
    (items output : List Rec) (e : String)
    (hfiles : process eng.files.plugins (input.getD []) eng.id = .ok items)
    (hfail : eng.transformer items = .error e
      ∨ (eng.transformer items = .ok output
         ∧ process eng.components.plugins output eng.id = .error e)) :
    (parseCall eng (.ok input) cb).calls = [.error e] ∧
    (parseCall eng (.ok input) cb).engine.files.state
      = some (bindMethods items eng.files.methods) ∧
    (parseCall eng (.ok input) cb).engine.components.state = eng.components.state := by
  have hmut : mutate eng (input.getD []) .files
      = .ok (bindMethods items eng.files.methods,
             eng.setTarget .files
               { eng.files with state := some (bindMethods items eng.files.methods) }) := by
    unfold mutate
    rw [target_files, hfiles]
  have hch : parseChain eng input (fun x => x)
      = .error (e, eng.setTarget .files
          { eng.files with state := some (bindMethods items eng.files.methods) }) := by
    unfold parseChain
    rw [hmut]
    dsimp only
    rw [bindMethods_toArray, setTarget_transformer]
    rcases hfail with htr | ⟨htr, hcomp⟩
    · rw [htr]
    · rw [htr]
      dsimp only
      unfold mutate
      rw [target_components, setTarget_files_components, setTarget_engine_id, hcomp]
  unfold parseCall parseRun
  simp only [hch]
  simp

/-- Witness for C2: a components plugin failing with `boom` after two
records went through the files stage. -/
theorem components_failure_partial_publication_witness :
    (process c2Engine.files.plugins ((some [1, 2] : Option (List Nat)).getD []) c2Engine.id
        = .ok [1, 2]) ∧
    (c2Engine.transformer [1, 2] = .ok [1, 2]
      ∧ process c2Engine.components.plugins [1, 2] c2Engine.id = .error "boom") ∧
    ((parseCall c2Engine (.ok (some [1, 2])) promiseCb).calls = [.error "boom"] ∧
     (parseCall c2Engine (.ok (some [1, 2])) promiseCb).engine.files.state
        = some (bindMethods [1, 2] c2Engine.files.methods) ∧
     (parseCall c2Engine (.ok (some [1, 2])) promiseCb).engine.components.state
        = c2Engine.components.state) :=
  ⟨rfl, ⟨rfl, rfl⟩,
    components_failure_partial_publication c2Engine (some [1, 2]) promiseCb [1, 2] [1, 2]
      "boom" rfl (Or.inr ⟨rfl, rfl⟩)⟩

/-- C3: the promise calling convention is equivalent to the callback one:
for the same engine and read outcome, the promise form leaves the same
engine and events, and it settles with exactly the value the callback form
delivers in its single callback invocation — resolution with the
`(components, files)` pair, rejection with the failure. -/
theorem parse_callback_promise_equiv {Rec : Type u} (eng : Engine Rec)
    (readRes : Except String (Option (List Rec))) (cb : Callback Rec)
    (hcb : ∀ a, cb a = .ok ()) :
    (parseCall eng readRes cb).engine = (parsePromise eng readRes).1.engine ∧
    (parseCall eng readRes cb).events = (parsePromise eng readRes).1.events ∧
    (parseCall eng readRes cb).calls = [(parsePromise eng readRes).2] := by
  unfold parsePromise parseCall parseRun
  cases readRes with
  | error e => simp [promiseCb]
  | ok input =>
      cases hch : parseChain eng input (fun x => x) with
      | error p =>
          obtain ⟨e, eng1⟩ := p
          simp [hch, promiseCb]
      | ok eng3 => simp [hch, promiseCb, hcb]

/-- Witness for C3 on a freshly constructed engine parsing one record. -/
theorem parse_callback_promise_equiv_witness :
    (parseCall (constructEngine 0 : Engine Nat) (.ok (some [1])) promiseCb).engine
      = (parsePromise (constructEngine 0 : Engine Nat) (.ok (some [1]))).1.engine ∧
    (parseCall (constructEngine 0 : Engine Nat) (.ok (some [1])) promiseCb).events
      = (parsePromise (constructEngine 0 : Engine Nat) (.ok (some [1]))).1.events ∧
    (parseCall (constructEngine 0 : Engine Nat) (.ok (some [1])) promiseCb).calls
      = [(parsePromise (constructEngine 0 : Engine Nat) (.ok (some [1]))).2] :=
  parse_callback_promise_equiv (constructEngine 0) (.ok (some [1])) promiseCb (fun _ => rfl)

/-- C4, counterexample: the state snapshot is not a fixed argument captured
at the parse that attached the method.  A state-echoing method attached by
the first parse (three records) and invoked after a second parse (one
record) reports the second parse's state, not the state captured when it
was bound. -/
theorem method_state_not_captured :
    c4Run1.engine.components.state = some c4Coll ∧
    callMethod c4Run2.engine c4Coll "echo" []
      = some (.ok (.stateObj (.coll [7]) (.coll [7]))) ∧
    stateVal c4Run1.engine = .stateObj (.coll [1, 2, 3]) (.coll [1, 2, 3]) ∧
    (JVal.stateObj (.coll [7]) (.coll [7]) : JVal Nat)
      ≠ .stateObj (.coll [1, 2, 3]) (.coll [1, 2, 3]) :=
  ⟨rfl, rfl, rfl, by decide⟩

/-- C4 (amended): an attached method is not specialized to the collection
it was attached to: the wrapped handler is an arrow function, so the
parse-time `bind(collection)` gives it no access to the receiver —
invoking the same named handler through any two collections carrying it
yields the same result — and the handler receives the invocation
arguments, the engine state read at call time, and the engine reference. -/
theorem method_receiver_independent {Rec : Type u} (eng : Engine Rec)
    (c c2 : Collection Rec) (name : String) (h : Handler Rec)
    (args : List (JVal Rec))
    (hc : findMethod c name = some h) (hc2 : findMethod c2 name = some h) :
    callMethod eng c name args = callMethod eng c2 name args ∧
    callMethod eng c name args = some (h args (stateVal eng) eng.id) := by
  simp [callMethod, hc, hc2]

/-- Witness for C4's amended theorem: the same echo handler attached to two
different collections yields identical invocations. -/
theorem method_receiver_independent_witness :
    (findMethod (bindMethods [1] [("m", echoStateHandler)] : Collection Nat) "m"
        = some echoStateHandler) ∧
    (findMethod (bindMethods [2, 3] [("m", echoStateHandler)] : Collection Nat) "m"
        = some echoStateHandler) ∧
    (callMethod (constructEngine 0) (bindMethods [1] [("m", echoStateHandler)]) "m" []
        = callMethod (constructEngine 0) (bindMethods [2, 3] [("m", echoStateHandler)]) "m" [] ∧
     callMethod (constructEngine 0) (bindMethods [1] [("m", echoStateHandler)]) "m" []
        = some (echoStateHandler [] (stateVal (constructEngine 0 : Engine Nat))
            (constructEngine 0 : Engine Nat).id)) :=
  ⟨rfl, rfl, method_receiver_independent _ _ _ _ _ _ rfl rfl⟩

/-- C5, counterexample: a record-counting method bound by the first parse
(three records) answers 3 right after that parse, but answers 1 — the
call-time state — when invoked on the same collection after a second parse
of one record; it does not observe the state current at bind time. -/
theorem bound_method_observes_later_parse :
    c5Run1.engine.components.state = some c5Coll ∧
    callMethod c5Run1.engine c5Coll "len" [] = some (.ok (.nat 3)) ∧
    callMethod c5Run2.engine c5Coll "len" [] = some (.ok (.nat 1)) ∧
    (some (Except.ok (JVal.nat 1)) : Option (Except String (JVal Nat)))
      ≠ some (.ok (.nat 3)) := by
  refine ⟨rfl, rfl, rfl, ?_⟩
  simp

/-- C5 (amended): a bound method observes the engine reference captured at
registration — which no parse changes — and the engine state current at
the moment of the call: invoking it after a further parse passes that
parse's state object together with the unchanged engine reference. -/
theorem bound_method_call_time_state {Rec : Type u} (eng : Engine Rec)
    (readRes : Except String (Option (List Rec))) (cb : Callback Rec)
    (c : Collection Rec) (name : String) (h : Handler Rec) (args : List (JVal Rec))
    (hfind : findMethod c name = some h) :
    (parseCall eng readRes cb).engine.id = eng.id ∧
    callMethod (parseCall eng readRes cb).engine c name args
      = some (h args (stateVal (parseCall eng readRes cb).engine) eng.id) := by
  obtain ⟨-, hid⟩ := parseCall_preserves eng readRes cb
  exact ⟨hid, by simp [callMethod, hfind, hid]⟩

/-- Witness for C5's amended theorem on the two-parse scenario. -/
theorem bound_method_call_time_state_witness :
    (findMethod c5Coll "len" = some componentsCountHandler) ∧
    ((parseCall c5Run1.engine (.ok (some [9])) promiseCb).engine.id = c5Run1.engine.id ∧
     callMethod (parseCall c5Run1.engine (.ok (some [9])) promiseCb).engine c5Coll "len" []
       = some (componentsCountHandler []
           (stateVal (parseCall c5Run1.engine (.ok (some [9])) promiseCb).engine)
           c5Run1.engine.id)) :=
  ⟨rfl, bound_method_call_time_state _ _ _ _ _ _ _ rfl⟩

/-- C6, counterexample: a parse started with an empty components pipeline
applies a plugin registered on the components lane at the suspension point
after the transformer resolved — the published components records carry
the marker the mid-parse plugin appended, so the in-flight parse did not
use a pipeline snapshot taken at parse invocation. -/
theorem midparse_plugin_registration_applies :
    c6Engine.components.plugins = [] ∧
    c6Run.engine.components.state = some (bindMethods [1, 2, 99] []) ∧
    ([1, 2, 99] : List Nat) ≠ [1, 2] := by
  refine ⟨rfl, rfl, ?_⟩
  simp

/-- C6 (amended): each lane's pipeline is read at the moment that lane's
`process` is invoked, not at parse invocation: a plugin appended to the
components lane at the suspension point after the transformer resolves is
applied by the in-flight parse, and the published components state is the
result of the extended plugin list. -/
theorem pipeline_read_at_process_time {Rec : Type u} (eng : Engine Rec)
    (input : Option (List Rec)) (items output xs : List Rec) (p : Plugin Rec)
    (hfiles : process eng.files.plugins (input.getD []) eng.id = .ok items)
    (htrans : eng.transformer items = .ok output)
    (hcomp : process (eng.components.plugins ++ [p]) output eng.id = .ok xs) :
    (parseRun eng (.ok input) promiseCb
        (fun e2 => addPlugin e2 p .components)).engine.components.state
      = some (bindMethods xs eng.components.methods) := by
  have hmut : mutate eng (input.getD []) .files
      = .ok (bindMethods items eng.files.methods,
             eng.setTarget .files
               { eng.files with state := some (bindMethods items eng.files.methods) }) := by
    unfold mutate
    rw [target_files, hfiles]
  unfold parseRun parseChain
  dsimp only
  rw [hmut]
  dsimp only
  rw [bindMethods_toArray, setTarget_transformer, htrans]
  dsimp only
  unfold mutate addPlugin
  simp only [target_components, setTarget_files_components, setTarget_engine_id,
    setTarget_components_components, setTarget_files_files]
  rw [hcomp]
  dsimp only [promiseCb]
  simp

/-- Witness for C6's amended theorem: the marker plugin registered
mid-parse shows up in the published components records. -/
theorem pipeline_read_at_process_time_witness :
    (process c6Engine.files.plugins ((some [1, 2] : Option (List Nat)).getD []) c6Engine.id
        = .ok [1, 2]) ∧
    (c6Engine.transformer [1, 2] = .ok [1, 2]) ∧
    (process (c6Engine.components.plugins ++ [appendPlugin 99]) [1, 2] c6Engine.id
        = .ok [1, 2, 99]) ∧
    (parseRun c6Engine (.ok (some [1, 2])) promiseCb
        (fun e2 => addPlugin e2 (appendPlugin 99) .components)).engine.components.state
      = some (bindMethods [1, 2, 99] c6Engine.components.methods) :=
  ⟨rfl, rfl, rfl, pipeline_read_at_process_time _ _ _ _ _ _ rfl rfl rfl⟩

/-- C7: with no plugins on either lane and the transformer set to the
pass-through, parsing a raw input publishes a files collection and a
components collection whose record sequences are exactly the input
records (hence of the same length). -/
theorem identity_roundtrip {Rec : Type u} (eng : Engine Rec) (xs : List Rec)
    (cb : Callback Rec)
    (hf : eng.files.plugins = []) (hc : eng.components.plugins = [])
    (ht : eng.transformer = idTransformer) :
    (parseCall eng (.ok (some xs)) cb).engine.files.state
      = some (bindMethods xs eng.files.methods) ∧
    (parseCall eng (.ok (some xs)) cb).engine.components.state
      = some (bindMethods xs eng.components.methods) ∧
    (bindMethods xs eng.files.methods).toArray = xs ∧
    (bindMethods xs eng.components.methods).toArray = xs := by
  have hch : parseChain eng (some xs) (fun x => x)
      = .ok ((eng.setTarget .files
            { eng.files with state := some (bindMethods xs eng.files.methods) }).setTarget
          .components
            { eng.components with state := some (bindMethods xs eng.components.methods) }) := by
    unfold parseChain mutate
    simp only [target_files, target_components, hf, hc, ht, process, Option.getD_some,
      bindMethods_toArray, setTarget_transformer, setTarget_files_components, idTransformer]
  unfold parseCall parseRun
  simp only [hch]
  cases hcb : cb (.ok (((eng.setTarget .files
        { eng.files with state := some (bindMethods xs eng.files.methods) }).setTarget
      .components
        { eng.components with state := some (bindMethods xs eng.components.methods) }).components.state,
      ((eng.setTarget .files
        { eng.files with state := some (bindMethods xs eng.files.methods) }).setTarget
      .components
        { eng.components with state := some (bindMethods xs eng.components.methods) }).files.state)) with
  | ok u => simp [hcb]
  | error e2 => simp [hcb]

/-- Witness for C7 on two records. -/
theorem identity_roundtrip_witness :
    (c7Engine.files.plugins = []) ∧ (c7Engine.components.plugins = []) ∧
    (c7Engine.transformer = idTransformer) ∧
    ((parseCall c7Engine (.ok (some [1, 2])) promiseCb).engine.files.state
        = some (bindMethods [1, 2] c7Engine.files.methods) ∧
     (parseCall c7Engine (.ok (some [1, 2])) promiseCb).engine.components.state
        = some (bindMethods [1, 2] c7Engine.components.methods) ∧
     (bindMethods [1, 2] c7Engine.files.methods).toArray = [1, 2] ∧
     (bindMethods [1, 2] c7Engine.components.methods).toArray = [1, 2]) :=
  ⟨rfl, rfl, rfl, identity_roundtrip c7Engine [1, 2] promiseCb rfl rfl rfl⟩

/-- C8: the constructor installs the default no-op `error` listener, so an
engine carries at least one listener and an `error` emission does not
terminate the process; every failure delivered to the callback was also
emitted as an `error` event, every `error` event corresponds to a callback
error delivery (the event is observational, delivery happens on the error
channel), and a parse never changes the listener set. -/
theorem error_listener_and_delivery {Rec : Type u} (idn : Nat) (eng : Engine Rec)
    (readRes : Except String (Option (List Rec))) (cb : Callback Rec) (e : String)
    (hl : 0 < eng.errorListeners)
    (herr : Except.error e ∈ (parseCall eng readRes cb).calls) :
    (constructEngine idn : Engine Rec).errorListeners = 1 ∧
    Event.errorEvt e ∈ (parseCall eng readRes cb).events ∧
    (∀ m, Event.errorEvt m ∈ (parseCall eng readRes cb).events →
        Except.error m ∈ (parseCall eng readRes cb).calls) ∧
    (parseCall eng readRes cb).engine.errorListeners = eng.errorListeners ∧
    errorEmissionTerminates (parseCall eng readRes cb).engine = false := by
  obtain ⟨hlp, -⟩ := parseCall_preserves eng readRes cb
  have hterm : errorEmissionTerminates (parseCall eng readRes cb).engine = false := by
    simp only [errorEmissionTerminates, hlp, beq_eq_false_iff_ne, ne_eq]
    omega
  have hboth : Event.errorEvt e ∈ (parseCall eng readRes cb).events ∧
      (∀ m, Event.errorEvt m ∈ (parseCall eng readRes cb).events →
        Except.error m ∈ (parseCall eng readRes cb).calls) := by
    unfold parseCall parseRun at herr ⊢
    cases readRes with
    | error e1 => simp_all
    | ok input =>
        cases hch : parseChain eng input (fun x => x) with
        | error p =>
            obtain ⟨e1, eng1⟩ := p
            simp only [hch] at herr ⊢
            simp_all
        | ok eng3 =>
            simp only [hch] at herr ⊢
            cases hcb : cb (.ok (eng3.components.state, eng3.files.state)) with
            | ok u =>
                simp only [hcb] at herr ⊢
                simp_all
            | error e2 =>
                simp only [hcb] at herr ⊢
                simp_all
  exact ⟨rfl, hboth.1, hboth.2, hlp, hterm⟩

/-- Witness for C8: a files plugin failing with `boom` on a freshly
constructed engine. -/
theorem error_listener_and_delivery_witness :
    0 < c8Engine.errorListeners ∧
    Except.error "boom" ∈ (parseCall c8Engine (.ok (some [1])) promiseCb).calls ∧
    ((constructEngine 0 : Engine Nat).errorListeners = 1 ∧
     Event.errorEvt "boom" ∈ (parseCall c8Engine (.ok (some [1])) promiseCb).events ∧
     (parseCall c8Engine (.ok (some [1])) promiseCb).engine.errorListeners
        = c8Engine.errorListeners ∧
     errorEmissionTerminates (parseCall c8Engine (.ok (some [1])) promiseCb).engine
        = false) := by
  have hl : 0 < c8Engine.errorListeners := by decide
  have herr : Except.error "boom" ∈ (parseCall c8Engine (.ok (some [1])) promiseCb).calls := by
    rw [show (parseCall c8Engine (.ok (some [1])) promiseCb).calls
        = [Except.error "boom"] from rfl]
    exact List.mem_singleton.mpr rfl
  obtain ⟨h1, h2, -, h4, h5⟩ :=
    error_listener_and_delivery 0 c8Engine (.ok (some [1])) promiseCb "boom" hl herr
  exact ⟨hl, herr, h1, h2, h4, h5⟩

/-- C9, counterexample: adding the same path twice leaves the source list
with a duplicate entry — `addSrc` appends with `concat` and never
deduplicates against the existing list. -/
theorem addSrc_duplicates_kept :
    (addSrc (addSrc (constructEngine 0 : Engine Nat) ["a"]) ["a"]).src = ["a", "a"] ∧
    ¬ (["a", "a"] : List String).Nodup := by
  refine ⟨rfl, ?_⟩
  decide

/-- C9 (amended): the source list is an ordered append list: it starts
empty, and successive `addSrc` calls append their normalized paths in
order of addition, keeping duplicates. -/
theorem addSrc_appends_in_order {Rec : Type u} (eng : Engine Rec)
    (ps qs : List String) :
    (addSrc (addSrc eng ps) qs).src = eng.src ++ ps ++ qs ∧
    (constructEngine 0 : Engine Rec).src = [] := by
  constructor
  · simp [addSrc]
  · rfl

/-- C10: when the parse chain succeeds and the completion callback itself
throws on the success invocation, the trailing catch handler emits an
`error` event and invokes the same callback a second time with the thrown
error — the callback is invoked twice, first with the result pair and then
with the failure. -/
theorem throwing_callback_double_invocation {Rec : Type u} (eng eng3 : Engine Rec)
    (input : Option (List Rec)) (cb : Callback Rec) (e2 : String)
    (hchain : parseChain eng input (fun x => x) = .ok eng3)
    (hthrow : cb (.ok (eng3.components.state, eng3.files.state)) = .error e2) :
    (parseCall eng (.ok input) cb).calls
      = [.ok (eng3.components.state, eng3.files.state), .error e2] ∧
    Event.errorEvt e2 ∈ (parseCall eng (.ok input) cb).events := by
  unfold parseCall parseRun
  simp only [hchain, hthrow]
  simp

/-- Witness for C10: a callback that throws `callback crashed` on the
successful parse of one record. -/
theorem throwing_callback_double_invocation_witness :
    (parseChain (constructEngine 0 : Engine Nat) (some [1]) (fun x => x) = .ok c10Eng3) ∧
    (c10Cb (.ok (c10Eng3.components.state, c10Eng3.files.state)) = .error "callback crashed") ∧
    ((parseCall (constructEngine 0 : Engine Nat) (.ok (some [1])) c10Cb).calls
        = [.ok (c10Eng3.components.state, c10Eng3.files.state), .error "callback crashed"] ∧
     Event.errorEvt "callback crashed"
        ∈ (parseCall (constructEngine 0 : Engine Nat) (.ok (some [1])) c10Cb).events) :=
  ⟨rfl, rfl, throwing_callback_double_invocation _ c10Eng3 (some [1]) c10Cb _ rfl rfl⟩

end Fractal
